import Mathlib

/-!
Verification development for a FastAPI contacts-management service.

The embedding translates the repository's data model and the operations of
its authentication/token layer and contact repository into executable Lean
definitions: SQLAlchemy rows become structures, the database session becomes
an explicit `Db` state threaded through each operation, JWT handling becomes
functions over a `Token` structure, and Python exceptions become explicit
outcome constructors (HTTP error outcomes, plus a `serverError`-style
constructor for exceptions that no handler catches).
-/

namespace ContactsApp

/-! ## Calendar model

`Contact.birthday` is a SQL `DateTime` holding a calendar date at midnight.
The birthday filter is evaluated by the database backend (PostgreSQL) via
`func.age` / `func.date_part` / interval subtraction, so we embed the
relevant fragment of the backend's date arithmetic.
-/

/-- Gregorian leap-year test (as used by PostgreSQL's `isleap`). -/
def isLeap (y : Int) : Bool :=
  y % 4 == 0 && (y % 100 != 0 || y % 400 == 0)

/-- Number of days in a month (PostgreSQL `day_tab`). -/
def daysInMonth (y : Int) (m : Nat) : Nat :=
  if m == 2 then (if isLeap y then 29 else 28)
  else if m == 4 || m == 6 || m == 9 || m == 11 then 30
  else 31

/-- A calendar date (the date component of a midnight timestamp). -/
structure Date where
  year : Int
  month : Nat
  day : Nat
  deriving DecidableEq, Repr

/-- A date is valid when month and day are in range for its year. -/
def Date.Valid (d : Date) : Prop :=
  1 ≤ d.month ∧ d.month ≤ 12 ∧ 1 ≤ d.day ∧ d.day ≤ daysInMonth d.year d.month

instance (d : Date) : Decidable d.Valid :=
  inferInstanceAs (Decidable (_ ∧ _ ∧ _ ∧ _))

/-- Chronological (lexicographic) comparison of midnight timestamps. -/
def dateLtB (a b : Date) : Bool :=
  a.year < b.year ||
    (a.year == b.year &&
      (a.month < b.month || (a.month == b.month && a.day < b.day)))

/-- The previous calendar day. -/
def predDate (d : Date) : Date :=
  if d.day > 1 then ⟨d.year, d.month, d.day - 1⟩
  else if d.month > 1 then ⟨d.year, d.month - 1, daysInMonth d.year (d.month - 1)⟩
  else ⟨d.year - 1, 12, 31⟩

/-- The next calendar day. -/
def succDate (d : Date) : Date :=
  if d.day < daysInMonth d.year d.month then ⟨d.year, d.month, d.day + 1⟩
  else if d.month < 12 then ⟨d.year, d.month + 1, 1⟩
  else ⟨d.year + 1, 1, 1⟩

/-- Timestamp minus an interval of `n` days (`birthday - cast(timedelta(7), Interval)`). -/
def subDays (d : Date) : Nat → Date
  | 0 => d
  | n + 1 => predDate (subDays d n)

/-- Timestamp plus `n` days (used only to state what "k days from now" means). -/
def addDays (d : Date) : Nat → Date
  | 0 => d
  | n + 1 => succDate (addDays d n)

/-- True when the (month, day) pair of `a` precedes that of `b`. -/
def mdLtB (a b : Date) : Bool :=
  a.month < b.month || (a.month == b.month && a.day < b.day)

/-- Two dates share their (month, day) pair — "the birthday falls on this date". -/
def sameMD (a b : Date) : Bool :=
  a.month == b.month && a.day == b.day

/-- Modelled from the spec: PostgreSQL's `age` interval normalization loop
(`while (tm->tm_mday < 0) { tm->tm_mday += day_tab[...]; tm->tm_mon--; }`),
which borrows negative day differences from the month difference. The fuel
argument bounds the iteration count; `d.natAbs + 1` steps always suffice to
exit the loop when `len ≥ 1`, so the fuel never truncates a real run. -/
def borrowDayAux (len : Nat) : Nat → Int → Int → Int × Int
  | 0, d, m => (d, m)
  | fuel + 1, d, m =>
    if d < 0 then
      (if len == 0 then (d, m) else borrowDayAux len fuel (d + len) (m - 1))
    else (d, m)

/-- Day-borrowing loop entry point (see `borrowDayAux`). -/
def borrowDay (d m : Int) (len : Nat) : Int × Int :=
  borrowDayAux len (d.natAbs + 1) d m

/-- Modelled from the spec: PostgreSQL's month-borrowing loop
(`while (tm->tm_mon < 0) { tm->tm_mon += 12; tm->tm_year--; }`). -/
def borrowMonthAux : Nat → Int → Int → Int × Int
  | 0, m, y => (m, y)
  | fuel + 1, m, y =>
    if m < 0 then borrowMonthAux fuel (m + 12) (y - 1) else (m, y)

/-- Month-borrowing loop entry point (see `borrowMonthAux`). -/
def borrowMonth (m y : Int) : Int × Int :=
  borrowMonthAux (m.natAbs + 1) m y

/-- Modelled from the spec: the `year` field that
`func.date_part("year", func.age(b))` extracts, i.e. the years component of
PostgreSQL's `age(current_date, b)` symbolic difference. Componentwise
differences are taken and negative days/months are borrowed from the next
field up, choosing the borrowing month length from the earlier timestamp
exactly as `timestamp_age` does; the application only evaluates this with
the timestamp `b` not after `t` (birthdays lie in the past). -/
def pgAgeYears (t b : Date) : Int :=
  let len := if dateLtB t b then daysInMonth t.year t.month else daysInMonth b.year b.month
  let dm := borrowDay ((t.day : Int) - (b.day : Int)) ((t.month : Int) - (b.month : Int)) len
  (borrowMonth dm.2 (t.year - b.year)).2

/-- `has_birthday_next_week(birthday)`: compares the age the contact will
have in 7 days (computed as the age of a person born 7 days earlier) with
the current age, both as `date_part("year", age(...))`, and requires the
former to be strictly greater. `today` stands for the database's
`current_date`. -/
def hasBirthdayNextWeek (today birthday : Date) : Bool :=
  pgAgeYears today (subDays birthday 7) > pgAgeYears today birthday

/-- The month/day window that (as proved below) characterises
`hasBirthdayNextWeek` for past birthdays: today's (month, day) lies at or
after that of `birthday - 7 days` and strictly before that of `birthday`,
cyclically across New Year when the 7-day step crosses a year boundary. -/
def inBirthdayWindow (today birthday : Date) : Bool :=
  let b' := subDays birthday 7
  if b'.year == birthday.year then
    !mdLtB today b' && mdLtB today birthday
  else
    mdLtB today birthday || !mdLtB today b'

/-! ## JWT model

Modelled from the spec: the `jose` JWT library is an external collaborator.
A token is abstracted by the facts `jwt.decode` checks — whether its
signature verifies under the service's secret key and whether its `exp`
claim has passed — together with the payload claims the service reads
(`scope` and `sub`, each possibly absent). `jwt.decode` raises `JWTError`
exactly on an invalid signature or an expired token; a subsequent Python
`payload['k']` lookup on a missing key raises `KeyError`, which is *not* a
`JWTError`. Distinct token strings are represented by distinct `Token`
values, so SQL string equality on a stored token becomes `Token` equality.
-/

structure Token where
  sigValid : Bool
  expired : Bool
  scope : Option String
  sub : Option String
  deriving DecidableEq, Repr

/-- `jwt.decode` succeeds (no `JWTError`): valid signature and unexpired. -/
def decodeOk (t : Token) : Bool :=
  t.sigValid && !t.expired

/-- `Auth.create_access_token(data={"sub": email})`: a freshly signed,
unexpired token with scope `"access_token"`. -/
def createAccessToken (email : String) : Token :=
  ⟨true, false, some "access_token", some email⟩

/-- `Auth.create_refresh_token(data={"sub": email})`: a freshly signed,
unexpired token with scope `"refresh_token"`. -/
def createRefreshToken (email : String) : Token :=
  ⟨true, false, some "refresh_token", some email⟩

/-- `Auth.create_email_token(data={"sub": email})`: a freshly signed,
unexpired token that sets *no* scope claim. -/
def createEmailToken (email : String) : Token :=
  ⟨true, false, none, some email⟩

/-! ## Password hasher

Modelled from the spec: the passlib `CryptContext(schemes=["bcrypt"])`
hasher is an external collaborator; spec §4.1 specifies `hash` as a
one-way transform and `verify(plain, hash)` as true iff `plain` matches
`hash` under the same scheme. We model the transform deterministically and
injectively, keeping the bcrypt output format marker so that a hash is
never the plaintext itself. -/
def getPasswordHash (password : String) : String :=
  "$2b$12$" ++ password

/-- `Auth.verify_password(plain_password, hashed_password)`. -/
def verifyPassword (plain hashed : String) : Bool :=
  hashed == getPasswordHash plain

/-! ## Data model and store

`models.py` declares `users` and `contacts` tables; the database session
becomes an explicit `Db` value. The `confirmed` and `avatar` fields are
modelled from the spec: spec §3 gives the User record a
`confirmed(bool, default false)` flag and a nullable avatar URL, and the
routes/repository read and write `user.confirmed` / `user.avatar`, but the
shipped `models.py` omits the two columns (the repo's migration chain
references a revision that is not shipped, so the model revision that adds
them is missing from `src/`). -/

structure User where
  id : Int
  username : String
  email : String
  password : String
  confirmed : Bool
  refresh_token : Option Token
  avatar : Option String
  deriving DecidableEq, Repr

structure Contact where
  id : Int
  firstname : String
  lastname : String
  email : String
  phone : String
  birthday : Date
  user_id : Option Int
  deriving DecidableEq, Repr

structure Db where
  users : List User
  contacts : List Contact
  deriving DecidableEq, Repr

/-- Request body of `POST /auth/signup` (`schemas.UserModel`). -/
structure UserModel where
  username : String
  email : String
  password : String
  deriving DecidableEq, Repr

/-- Request body of contact creation/update (`schemas.ContactModel`). -/
structure ContactModel where
  firstname : String
  lastname : String
  email : String
  phone : String
  birthday : Date
  deriving DecidableEq, Repr

/-! ## repository/users.py -/

/-- `get_user_by_email(email, db)`:
`db.query(User).filter(User.email == email).first()`. -/
def getUserByEmail (email : String) (db : Db) : Option User :=
  db.users.find? (fun u => u.email == email)

/-- Modelled from the spec: the external Gravatar collaborator queried by
`create_user`; on success it yields an avatar URL derived from the email,
and `create_user` falls back to `None` when the lookup throws. We model
the successful lookup deterministically. -/
def gravatarImage (email : String) : Option String :=
  some ("gravatar/" ++ email)

/-- `create_user(body, db)`: inserts `User(**body.model_dump(), avatar=...)`
and commits. The autoincrement primary key is modelled as one past the
number of stored users; `confirmed` starts false and `refresh_token` null
(spec §3 lifecycle: created at signup, unconfirmed). -/
def createUser (body : UserModel) (db : Db) : User × Db :=
  let newUser : User :=
    { id := (db.users.length : Int) + 1
      username := body.username
      email := body.email
      password := body.password
      confirmed := false
      refresh_token := none
      avatar := gravatarImage body.email }
  (newUser, { db with users := db.users ++ [newUser] })

/-- `update_token(user, token, db)`: `user.refresh_token = token; db.commit()`.
Object-identity mutation of the fetched row is modelled by primary key. -/
def updateToken (user : User) (token : Option Token) (db : Db) : Db :=
  { db with
    users := db.users.map (fun u => if u.id == user.id then { u with refresh_token := token } else u) }

/-- `confirmed_email(email, db)` (repository): re-fetches the user by email
and sets `user.confirmed = True`. When no user matches, Python evaluates
`None.confirmed = True` and raises `AttributeError`, modelled as `none`. -/
def repoConfirmedEmail (email : String) (db : Db) : Option Db :=
  match getUserByEmail email db with
  | none => none
  | some user =>
    some { db with
           users := db.users.map (fun u => if u.id == user.id then { u with confirmed := true } else u) }

/-! ## repository/contacts.py -/

/-- `get_contacts(db, user)`: contacts filtered by `Contact.user_id == user.id`. -/
def getContacts (db : Db) (user : User) : List Contact :=
  db.contacts.filter (fun c => c.user_id == some user.id)

/-- `create_contact(body, db, user)`: inserts a contact owned by `user`. -/
def createContact (body : ContactModel) (db : Db) (user : User) : Contact × Db :=
  let contact : Contact :=
    { id := (db.contacts.length : Int) + 1
      firstname := body.firstname
      lastname := body.lastname
      email := body.email
      phone := body.phone
      birthday := body.birthday
      user_id := some user.id }
  (contact, { db with contacts := db.contacts ++ [contact] })

/-- `get_contact(contact_id, db, user)`:
`filter(and_(Contact.id == contact_id, Contact.user_id == user.id)).first()`. -/
def getContact (contactId : Int) (db : Db) (user : User) : Option Contact :=
  db.contacts.find? (fun c => c.id == contactId && c.user_id == some user.id)

/-- `update_contact(contact_id, body, db, user)`: fetches with the same
owner-scoped filter; returns `None` leaving the store untouched when the
fetch misses, otherwise overwrites the contact's fields and commits. -/
def updateContact (contactId : Int) (body : ContactModel) (db : Db) (user : User) :
    Option Contact × Db :=
  match getContact contactId db user with
  | none => (none, db)
  | some contact =>
    let updated : Contact :=
      { contact with
        firstname := body.firstname
        lastname := body.lastname
        email := body.email
        phone := body.phone
        birthday := body.birthday }
    (some updated,
     { db with contacts := db.contacts.map (fun c => if c.id == contact.id then updated else c) })

/-- `remove_contact(contact_id, db, user)`: fetches with the owner-scoped
filter; returns `None` leaving the store untouched when the fetch misses,
otherwise deletes the row and commits. -/
def removeContact (contactId : Int) (db : Db) (user : User) : Option Contact × Db :=
  match getContact contactId db user with
  | none => (none, db)
  | some contact =>
    (some contact, { db with contacts := db.contacts.filter (fun c => !(c.id == contact.id)) })

/-- `get_contacts_with_name(name, db, user)`. -/
def getContactsWithName (name : String) (db : Db) (user : User) : List Contact :=
  db.contacts.filter (fun c => c.firstname == name && c.user_id == some user.id)

/-- `get_contacts_with_lastname(lastname, db, user)`. -/
def getContactsWithLastname (lastname : String) (db : Db) (user : User) : List Contact :=
  db.contacts.filter (fun c => c.lastname == lastname && c.user_id == some user.id)

/-- `get_contacts_with_email(email, db, user)`. -/
def getContactsWithEmail (email : String) (db : Db) (user : User) : List Contact :=
  db.contacts.filter (fun c => c.email == email && c.user_id == some user.id)

/-- `get_contacts_with_recent_birthdays(db, user)`: filters by
`has_birthday_next_week(Contact.birthday)` and ownership; `today` is the
database's `current_date` at evaluation time. -/
def getContactsWithRecentBirthdays (today : Date) (db : Db) (user : User) : List Contact :=
  db.contacts.filter (fun c => hasBirthdayNextWeek today c.birthday && c.user_id == some user.id)

/-! ## database/auth.py: token validation -/

/-- Result of `Auth.get_current_user`: the resolved user, the 401
`credentials_exception`, or an exception no handler catches (Python
`KeyError` escaping the `except JWTError` clause, surfaced by the
framework as a 500). -/
inductive AuthOutcome where
  | user (u : User)
  | unauthorized
  | serverError
  deriving DecidableEq, Repr

/-- `Auth.get_current_user(token, db)`: decodes the JWT (any `JWTError`
becomes the 401 `credentials_exception`), requires `payload['scope'] ==
'access_token'`, reads `payload["sub"]`, and resolves the user by email;
a missing user is again the 401. Indexing a missing `scope` or `sub` key
raises `KeyError`, which `except JWTError` does not catch. (The code's
`if email is None` check is unreachable: `jose` rejects a non-string `sub`
claim at decode time with a `JWTError`.) -/
def getCurrentUser (token : Token) (db : Db) : AuthOutcome :=
  if decodeOk token then
    match token.scope with
    | none => .serverError
    | some s =>
      if s == "access_token" then
        match token.sub with
        | none => .serverError
        | some email =>
          match getUserByEmail email db with
          | none => .unauthorized
          | some u => .user u
      else .unauthorized
  else .unauthorized

/-- Result of `Auth.decode_refresh_token`: the subject email, a 401
`HTTPException` with its detail string, or an uncaught `KeyError`. -/
inductive DecodeRT where
  | ok (email : String)
  | unauthorized (detail : String)
  | keyError
  deriving DecidableEq, Repr

/-- `Auth.decode_refresh_token(refresh_token)`: decodes the JWT (any
`JWTError` becomes 401 "Could not validate credentials"), requires
`payload['scope'] == 'refresh_token'` (else 401 "Invalid scope for
token"), and returns `payload['sub']`. Indexing a missing `scope` or
`sub` key raises `KeyError`, which `except JWTError` does not catch. -/
def decodeRefreshToken (token : Token) : DecodeRT :=
  if decodeOk token then
    match token.scope with
    | none => .keyError
    | some s =>
      if s == "refresh_token" then
        match token.sub with
        | none => .keyError
        | some email => .ok email
      else .unauthorized "Invalid scope for token"
  else .unauthorized "Could not validate credentials"

/-- Result of `Auth.get_email_from_token`: the subject email, the 422
"Invalid token for email verification" error, or an uncaught `KeyError`. -/
inductive EmailTokenResult where
  | ok (email : String)
  | unprocessable
  | keyError
  deriving DecidableEq, Repr

/-- `Auth.get_email_from_token(token)`: decodes the JWT (any `JWTError`
becomes the 422 error) and returns `payload["sub"]`. -/
def getEmailFromToken (token : Token) : EmailTokenResult :=
  if decodeOk token then
    match token.sub with
    | none => .keyError
    | some email => .ok email
  else .unprocessable

/-! ## routes/users.py -/

/-- Result of `POST /auth/signup`: 201 with the created user, or the 409
conflict. -/
inductive SignupOutcome where
  | created (u : User)
  | conflict (detail : String)
  deriving DecidableEq, Repr

/-- `signup(body, db)`: rejects an already-registered email with 409
"Account already exists"; otherwise replaces `body.password` with its
hash, creates the user, dispatches the confirmation email in the
background (fire-and-forget, not modelled), and returns 201. -/
def signup (body : UserModel) (db : Db) : SignupOutcome × Db :=
  match getUserByEmail body.email db with
  | some _ => (.conflict "Account already exists", db)
  | none =>
    let hashedBody := { body with password := getPasswordHash body.password }
    let (newUser, db') := createUser hashedBody db
    (.created newUser, db')

/-- Result of `POST /auth/login` and `GET /auth/refresh_token`: the token
pair, a 401 with its detail string, or an uncaught exception. -/
inductive TokenPairOutcome where
  | ok (access : Token) (refresh : Token)
  | unauthorized (detail : String)
  | serverError
  deriving DecidableEq, Repr

/-- `login(username, password, db)`: 401 "Invalid email" for an unknown
email, 401 "Email not confirmed" for an unconfirmed user, 401 "Invalid
password" on hash mismatch; otherwise issues a fresh access+refresh pair
for `user.email` and persists the refresh token on the user record. -/
def login (username password : String) (db : Db) : TokenPairOutcome × Db :=
  match getUserByEmail username db with
  | none => (.unauthorized "Invalid email", db)
  | some user =>
    if !user.confirmed then (.unauthorized "Email not confirmed", db)
    else if !verifyPassword password user.password then (.unauthorized "Invalid password", db)
    else
      let accessToken := createAccessToken user.email
      let refreshToken := createRefreshToken user.email
      (.ok accessToken refreshToken, updateToken user (some refreshToken) db)

/-- `refresh_token(credentials, db)`: decodes the presented refresh token
(errors propagate), resolves the user by the token's subject (Python reads
`user.refresh_token` without a `None` check, so an unknown subject raises
`AttributeError`), nulls the stored token and rejects with 401 "Invalid
refresh token" when the stored value differs from the presented token, and
otherwise issues a fresh pair and stores the new refresh token. -/
def refreshRoute (token : Token) (db : Db) : TokenPairOutcome × Db :=
  match decodeRefreshToken token with
  | .unauthorized d => (.unauthorized d, db)
  | .keyError => (.serverError, db)
  | .ok email =>
    match getUserByEmail email db with
    | none => (.serverError, db)
    | some user =>
      if !(user.refresh_token == some token) then
        (.unauthorized "Invalid refresh token", updateToken user none db)
      else
        let accessToken := createAccessToken email
        let refreshToken := createRefreshToken email
        (.ok accessToken refreshToken, updateToken user (some refreshToken) db)

/-- Result of `GET /auth/confirmed_email/{token}` and
`POST /auth/request_email`: a 200 message, a 400/422 error, or an uncaught
exception. -/
inductive MsgOutcome where
  | message (m : String)
  | badRequest (detail : String)
  | unprocessable (detail : String)
  | serverError
  deriving DecidableEq, Repr

/-- `confirmed_email(token, db)`: decodes the email token (errors become
the 422), 400 "Verification error" when no user matches the email, the
idempotent "already confirmed" message for a confirmed user, and otherwise
flips the flag through the repository and reports "Email confirmed". -/
def confirmedEmailRoute (token : Token) (db : Db) : MsgOutcome × Db :=
  match getEmailFromToken token with
  | .unprocessable => (.unprocessable "Invalid token for email verification", db)
  | .keyError => (.serverError, db)
  | .ok email =>
    match getUserByEmail email db with
    | none => (.badRequest "Verification error", db)
    | some user =>
      if user.confirmed then (.message "Your email is already confirmed", db)
      else
        match repoConfirmedEmail email db with
        | none => (.serverError, db)
        | some db' => (.message "Email confirmed", db')

/-- `request_email(body, db)`: fetches the user by email and immediately
reads `user.confirmed` — before the `if user:` existence check — so an
unknown email evaluates `None.confirmed` and raises `AttributeError`.
For an existing user the `if user:` test is always true (a row instance is
truthy) and the confirmation email is re-sent in the background. -/
def requestEmailRoute (email : String) (db : Db) : MsgOutcome :=
  match getUserByEmail email db with
  | none => .serverError
  | some user =>
    if user.confirmed then .message "Your email is already confirmed"
    else .message "Check your email for confirmation."

/-! ## routes/contacts.py -/

/-- Result of the single-contact routes: the contact or the 404. -/
inductive ContactOutcome where
  | ok (c : Contact)
  | notFound
  deriving DecidableEq, Repr

/-- `read_contact(contact_id, db, current_user)`: 404 "Contact not found"
when the owner-scoped fetch misses. -/
def readContactRoute (contactId : Int) (db : Db) (currentUser : User) : ContactOutcome :=
  match getContact contactId db currentUser with
  | none => .notFound
  | some c => .ok c

/-- `update_contact(body, contact_id, db, current_user)` route: 404 when
the owner-scoped update misses. -/
def updateContactRoute (body : ContactModel) (contactId : Int) (db : Db) (currentUser : User) :
    ContactOutcome × Db :=
  match updateContact contactId body db currentUser with
  | (none, db') => (.notFound, db')
  | (some c, db') => (.ok c, db')

/-- `remove_contact(contact_id, db, current_user)` route: 404 when the
owner-scoped delete misses. -/
def removeContactRoute (contactId : Int) (db : Db) (currentUser : User) :
    ContactOutcome × Db :=
  match removeContact contactId db currentUser with
  | (none, db') => (.notFound, db')
  | (some c, db') => (.ok c, db')

/-! ## Specification-side definitions used by the claims -/

/-- The claim's success condition for `get_current_user`, written from the
spec's words: valid signature, unexpired, scope claim `"access_token"`,
subject present, and a user with the subject email in the store. -/
def grantsAccess (t : Token) (db : Db) (u : User) : Prop :=
  t.sigValid = true ∧ t.expired = false ∧ t.scope = some "access_token" ∧
    ∃ e, t.sub = some e ∧ getUserByEmail e db = some u

/-- Chronological order on dates as a proposition (the Prop counterpart of
`dateLtB`, used in hypotheses). -/
def dateLt (a b : Date) : Prop :=
  a.year < b.year ∨ (a.year = b.year ∧ (a.month < b.month ∨ (a.month = b.month ∧ a.day < b.day)))

instance (a b : Date) : Decidable (dateLt a b) :=
  inferInstanceAs (Decidable (_ ∨ _))

/-- Month/day order as a proposition (the Prop counterpart of `mdLtB`). -/
def mdLt (a b : Date) : Prop :=
  a.month < b.month ∨ (a.month = b.month ∧ a.day < b.day)

instance (a b : Date) : Decidable (mdLt a b) :=
  inferInstanceAs (Decidable (_ ∨ _))

/-! ## Helper lemmas -/

theorem getPasswordHash_injective {p q : String} (h : getPasswordHash p = getPasswordHash q) :
    p = q := by
  unfold getPasswordHash at h
  have hdata := congrArg String.data h
  simp only [String.data_append] at hdata
  exact String.ext (List.append_cancel_left hdata)

theorem getPasswordHash_ne_self (p : String) : getPasswordHash p ≠ p := by
  intro h
  have hdata := congrArg String.data h
  unfold getPasswordHash at hdata
  simp only [String.data_append] at hdata
  have := congrArg List.length hdata
  simp [List.length_append] at this
  omega

/-- A `find?` that succeeds still succeeds, at the mapped element, after a
map that does not change which elements satisfy the predicate. This is how
SQLAlchemy's mutate-the-fetched-row-and-commit pattern interacts with a
subsequent re-fetch. -/
theorem find?_map_of_pred_preserved {l : List User} {p : User → Bool} {g : User → User}
    (hg : ∀ x, p (g x) = p x) :
    ∀ {u : User}, l.find? p = some u → (l.map g).find? p = some (g u) := by
  induction l with
  | nil => intro u h; simp at h
  | cons a t ih =>
    intro u h
    cases hpa : p a with
    | true =>
      rw [List.find?_cons_of_pos _ hpa] at h
      cases h
      simp only [List.map_cons]
      rw [List.find?_cons_of_pos]
      rw [hg a, hpa]
    | false =>
      rw [List.find?_cons_of_neg _ (by simp [hpa])] at h
      simp only [List.map_cons]
      rw [List.find?_cons_of_neg _ (by simp [hg a, hpa])]
      exact ih h

theorem getUserByEmail_updateToken {email : String} {db : Db} {u : User} {t : Option Token}
    (h : getUserByEmail email db = some u) :
    getUserByEmail email (updateToken u t db) = some { u with refresh_token := t } := by
  unfold getUserByEmail updateToken at *
  have := find?_map_of_pred_preserved
    (g := fun x => if x.id == u.id then { x with refresh_token := t } else x)
    (p := fun x => x.email == email) (fun x => by dsimp only; split <;> rfl) h
  simpa using this

theorem getUserByEmail_repoConfirmed {email : String} {db : Db} {u : User} {db' : Db}
    (h : getUserByEmail email db = some u)
    (h' : repoConfirmedEmail email db = some db') :
    getUserByEmail email db' = some { u with confirmed := true } := by
  unfold repoConfirmedEmail at h'
  rw [h] at h'
  cases h'
  unfold getUserByEmail at *
  have := find?_map_of_pred_preserved
    (g := fun x => if x.id == u.id then { x with confirmed := true } else x)
    (p := fun x => x.email == email) (fun x => by dsimp only; split <;> rfl) h
  simpa using this

/-! ## C9, C10, C7 -/

/-- C9: for all passwords `p ≠ p2`, `verify_password(p, get_password_hash(p))`
is true and `verify_password(p, get_password_hash(p2))` is false: the
hasher's boolean check accepts exactly the password the hash was made from. -/
theorem c9_hash_verify_roundtrip (p p2 : String) (h : p ≠ p2) :
    verifyPassword p (getPasswordHash p) = true ∧
      verifyPassword p (getPasswordHash p2) = false := by
  constructor
  · simp [verifyPassword]
  · simp only [verifyPassword, beq_eq_false_iff_ne, ne_eq]
    intro hcontra
    exact h (getPasswordHash_injective hcontra.symm)

/-- C9 witness: concrete passwords "123456" and "654321". -/
theorem c9_hash_verify_roundtrip_witness :
    ("123456" : String) ≠ "654321" ∧
      (verifyPassword "123456" (getPasswordHash "123456") = true ∧
        verifyPassword "123456" (getPasswordHash "654321") = false) :=
  ⟨by decide, c9_hash_verify_roundtrip "123456" "654321" (by decide)⟩

/-- C10: when `POST /auth/request_email` is given an email with no
registered user, the handler reads `user.confirmed` on the `None` user
before the existence check, raising an unhandled `AttributeError` (500)
instead of ever returning the 200 "Check your email for confirmation."
message; the `if user:` check is unreachable with a `None` user. -/
theorem c10_request_email_crash (email : String) (db : Db)
    (h : getUserByEmail email db = none) :
    requestEmailRoute email db = MsgOutcome.serverError ∧
      requestEmailRoute email db ≠ MsgOutcome.message "Check your email for confirmation." := by
  unfold requestEmailRoute
  rw [h]
  exact ⟨rfl, by simp⟩

/-- C10 witness: the empty store has no user for "ghost@mail.com". -/
theorem c10_request_email_crash_witness :
    getUserByEmail "ghost@mail.com" ⟨[], []⟩ = none ∧
      (requestEmailRoute "ghost@mail.com" ⟨[], []⟩ = MsgOutcome.serverError ∧
        requestEmailRoute "ghost@mail.com" ⟨[], []⟩ ≠
          MsgOutcome.message "Check your email for confirmation.") :=
  ⟨rfl, c10_request_email_crash "ghost@mail.com" ⟨[], []⟩ rfl⟩

/-- C7: signup with an already-registered email fails with the 409
conflict and leaves the store unchanged; signup with a fresh email creates
exactly one new user whose stored password is the hash of the submitted
password (never the plaintext), and returns that user with 201. -/
theorem c7_signup_conflict_or_create (body : UserModel) (db : Db) :
    (∀ u, getUserByEmail body.email db = some u →
        signup body db = (SignupOutcome.conflict "Account already exists", db)) ∧
    (getUserByEmail body.email db = none →
        ∃ nu db', signup body db = (SignupOutcome.created nu, db') ∧
          nu.password = getPasswordHash body.password ∧
          nu.password ≠ body.password ∧
          nu.email = body.email ∧
          nu.username = body.username ∧
          nu.confirmed = false ∧
          db'.users = db.users ++ [nu] ∧
          db'.contacts = db.contacts ∧
          getUserByEmail body.email db' = some nu) := by
  constructor
  · intro u hu
    unfold signup
    rw [hu]
  · intro hnone
    unfold signup
    rw [hnone]
    refine ⟨_, _, rfl, rfl, getPasswordHash_ne_self body.password, rfl, rfl, rfl, rfl, rfl, ?_⟩
    have hn' : List.find? (fun u => u.email == body.email) db.users = none := hnone
    simp only [getUserByEmail]
    simp only [List.find?_append, hn', Option.none_or]
    rw [List.find?_cons_of_pos _ (by simp)]

/-- C7 witness: signing up `jd@mail.com` on an empty store creates the
user; signing up the same email again returns the 409 conflict — the
spec's own example. -/
theorem c7_signup_conflict_or_create_witness :
    getUserByEmail "jd@mail.com"
        (signup ⟨"testname", "jd@mail.com", "654321"⟩ ⟨[], []⟩).2 =
      some ⟨1, "testname", "jd@mail.com", "$2b$12$654321", false, none,
        some "gravatar/jd@mail.com"⟩ ∧
    signup ⟨"testname", "jd@mail.com", "654321"⟩
        (signup ⟨"testname", "jd@mail.com", "654321"⟩ ⟨[], []⟩).2 =
      (SignupOutcome.conflict "Account already exists",
        (signup ⟨"testname", "jd@mail.com", "654321"⟩ ⟨[], []⟩).2) :=
  ⟨by decide,
   (c7_signup_conflict_or_create ⟨"testname", "jd@mail.com", "654321"⟩
        (signup ⟨"testname", "jd@mail.com", "654321"⟩ ⟨[], []⟩).2).1
      ⟨1, "testname", "jd@mail.com", "$2b$12$654321", false, none,
        some "gravatar/jd@mail.com"⟩ (by decide)⟩

/-! ## C5, C6 -/

/-- C5: login with an unknown email, an unconfirmed user, or a password
that fails verification is rejected as 401 unauthorized — the outcomes
differ only in the detail message — and in each case the store is
untouched; otherwise a fresh access+refresh pair is issued and the refresh
token is persisted on the user record, overwriting any previous value. -/
theorem c5_login_behaviour (username password : String) (db : Db) :
    (getUserByEmail username db = none →
        login username password db = (TokenPairOutcome.unauthorized "Invalid email", db)) ∧
    (∀ u, getUserByEmail username db = some u →
      (u.confirmed = false →
          login username password db = (TokenPairOutcome.unauthorized "Email not confirmed", db)) ∧
      (u.confirmed = true → verifyPassword password u.password = false →
          login username password db = (TokenPairOutcome.unauthorized "Invalid password", db)) ∧
      (u.confirmed = true → verifyPassword password u.password = true →
          login username password db =
            (TokenPairOutcome.ok (createAccessToken u.email) (createRefreshToken u.email),
              updateToken u (some (createRefreshToken u.email)) db) ∧
          getUserByEmail username (login username password db).2 =
            some { u with refresh_token := some (createRefreshToken u.email) })) := by
  constructor
  · intro hnone
    unfold login
    rw [hnone]
  · intro u hu
    refine ⟨?_, ?_, ?_⟩
    · intro hconf
      unfold login
      rw [hu]
      dsimp only
      rw [hconf]
      rfl
    · intro hconf hverify
      unfold login
      rw [hu]
      dsimp only
      rw [hconf, hverify]
      rfl
    · intro hconf hverify
      have hlogin : login username password db =
          (TokenPairOutcome.ok (createAccessToken u.email) (createRefreshToken u.email),
            updateToken u (some (createRefreshToken u.email)) db) := by
        unfold login
        rw [hu]
        dsimp only
        rw [hconf, hverify]
        rfl
      refine ⟨hlogin, ?_⟩
      rw [hlogin]
      exact getUserByEmail_updateToken hu

/-- C5 witness: a confirmed user with the hash of "654321" stored; login
succeeds and rotates the stored refresh token. -/
theorem c5_login_behaviour_witness :
    getUserByEmail "jd@mail.com"
        ⟨[⟨1, "john", "jd@mail.com", "$2b$12$654321", true, none, none⟩], []⟩ =
      some ⟨1, "john", "jd@mail.com", "$2b$12$654321", true, none, none⟩ ∧
    login "jd@mail.com" "654321"
        ⟨[⟨1, "john", "jd@mail.com", "$2b$12$654321", true, none, none⟩], []⟩ =
      (TokenPairOutcome.ok (createAccessToken "jd@mail.com") (createRefreshToken "jd@mail.com"),
        updateToken ⟨1, "john", "jd@mail.com", "$2b$12$654321", true, none, none⟩
          (some (createRefreshToken "jd@mail.com"))
          ⟨[⟨1, "john", "jd@mail.com", "$2b$12$654321", true, none, none⟩], []⟩) :=
  ⟨by decide,
   (((c5_login_behaviour "jd@mail.com" "654321"
        ⟨[⟨1, "john", "jd@mail.com", "$2b$12$654321", true, none, none⟩], []⟩).2
      ⟨1, "john", "jd@mail.com", "$2b$12$654321", true, none, none⟩ (by decide)).2.2
      (by decide) (by decide)).1⟩

/-- C6: on a confirmation token that decodes to an email, an unknown user
is the 400 "Verification error"; an already-confirmed user gets the
success message with the store untouched (idempotent); otherwise the
user's confirmed flag is flipped to true and success is returned. -/
theorem c6_confirmed_email_behaviour (token : Token) (db : Db) (email : String)
    (hdec : getEmailFromToken token = EmailTokenResult.ok email) :
    (getUserByEmail email db = none →
        confirmedEmailRoute token db = (MsgOutcome.badRequest "Verification error", db)) ∧
    (∀ u, getUserByEmail email db = some u →
      (u.confirmed = true →
          confirmedEmailRoute token db = (MsgOutcome.message "Your email is already confirmed", db)) ∧
      (u.confirmed = false →
          (confirmedEmailRoute token db).1 = MsgOutcome.message "Email confirmed" ∧
          getUserByEmail email (confirmedEmailRoute token db).2 =
            some { u with confirmed := true } ∧
          (confirmedEmailRoute token db).2.contacts = db.contacts)) := by
  constructor
  · intro hnone
    unfold confirmedEmailRoute
    rw [hdec]
    dsimp only
    rw [hnone]
  · intro u hu
    constructor
    · intro hconf
      unfold confirmedEmailRoute
      rw [hdec]
      dsimp only
      rw [hu]
      dsimp only
      rw [hconf]
      rfl
    · intro hconf
      have hrepo : repoConfirmedEmail email db =
          some { db with
                 users := db.users.map
                   (fun x => if x.id == u.id then { x with confirmed := true } else x) } := by
        unfold repoConfirmedEmail
        rw [hu]
      have hroute : confirmedEmailRoute token db =
          (MsgOutcome.message "Email confirmed",
            { db with
              users := db.users.map
                (fun x => if x.id == u.id then { x with confirmed := true } else x) }) := by
        unfold confirmedEmailRoute
        rw [hdec]
        dsimp only
        rw [hu]
        dsimp only
        rw [hconf, hrepo]
        rfl
      rw [hroute]
      exact ⟨rfl, getUserByEmail_repoConfirmed hu hrepo, rfl⟩

/-- C6 witness: an already-confirmed user; redeeming the token again
returns the success message and leaves the store unchanged. -/
theorem c6_confirmed_email_behaviour_witness :
    getEmailFromToken (createEmailToken "jd@mail.com") = EmailTokenResult.ok "jd@mail.com" ∧
    getUserByEmail "jd@mail.com"
        ⟨[⟨1, "john", "jd@mail.com", "$2b$12$654321", true, none, none⟩], []⟩ =
      some ⟨1, "john", "jd@mail.com", "$2b$12$654321", true, none, none⟩ ∧
    confirmedEmailRoute (createEmailToken "jd@mail.com")
        ⟨[⟨1, "john", "jd@mail.com", "$2b$12$654321", true, none, none⟩], []⟩ =
      (MsgOutcome.message "Your email is already confirmed",
        ⟨[⟨1, "john", "jd@mail.com", "$2b$12$654321", true, none, none⟩], []⟩) :=
  ⟨by decide, by decide,
   ((c6_confirmed_email_behaviour (createEmailToken "jd@mail.com")
        ⟨[⟨1, "john", "jd@mail.com", "$2b$12$654321", true, none, none⟩], []⟩
        "jd@mail.com" (by decide)).2
      ⟨1, "john", "jd@mail.com", "$2b$12$654321", true, none, none⟩ (by decide)).1 (by decide)⟩

/-! ## C4 -/

/-- C4: when every stored contact with a given id belongs to `owner`, any
read, update, or delete of that id issued by a different user misses the
owner-scoped filter — the repository returns `None`, the route answers
404, and the store is left unchanged — and every contact list/search query
returns only contacts owned by the requesting user. -/
theorem c4_contact_isolation (db : Db) (owner other : User) (contactId : Int)
    (body : ContactModel) (today : Date)
    (hne : owner.id ≠ other.id)
    (hown : ∀ c ∈ db.contacts, c.id = contactId → c.user_id = some owner.id) :
    getContact contactId db other = none ∧
    readContactRoute contactId db other = ContactOutcome.notFound ∧
    updateContact contactId body db other = (none, db) ∧
    updateContactRoute body contactId db other = (ContactOutcome.notFound, db) ∧
    removeContact contactId db other = (none, db) ∧
    removeContactRoute contactId db other = (ContactOutcome.notFound, db) ∧
    (∀ c ∈ getContacts db other, c.user_id = some other.id) ∧
    (∀ name, ∀ c ∈ getContactsWithName name db other, c.user_id = some other.id) ∧
    (∀ lastname, ∀ c ∈ getContactsWithLastname lastname db other, c.user_id = some other.id) ∧
    (∀ em, ∀ c ∈ getContactsWithEmail em db other, c.user_id = some other.id) ∧
    (∀ c ∈ getContactsWithRecentBirthdays today db other, c.user_id = some other.id) := by
  have hget : getContact contactId db other = none := by
    unfold getContact
    rw [List.find?_eq_none]
    intro c hc
    simp only [Bool.and_eq_true, beq_iff_eq, not_and]
    intro hid huid
    exact hne (by
      have := hown c hc hid
      rw [this] at huid
      exact Option.some_injective _ huid)
  refine ⟨hget, ?_, ?_, ?_, ?_, ?_, ?_, ?_, ?_, ?_, ?_⟩
  · unfold readContactRoute
    rw [hget]
  · unfold updateContact
    rw [hget]
  · unfold updateContactRoute updateContact
    rw [hget]
  · unfold removeContact
    rw [hget]
  · unfold removeContactRoute removeContact
    rw [hget]
  · intro c hc
    simp only [getContacts, List.mem_filter, beq_iff_eq] at hc
    exact hc.2
  · intro name c hc
    simp only [getContactsWithName, List.mem_filter, Bool.and_eq_true, beq_iff_eq] at hc
    exact hc.2.2
  · intro lastname c hc
    simp only [getContactsWithLastname, List.mem_filter, Bool.and_eq_true, beq_iff_eq] at hc
    exact hc.2.2
  · intro em c hc
    simp only [getContactsWithEmail, List.mem_filter, Bool.and_eq_true, beq_iff_eq] at hc
    exact hc.2.2
  · intro c hc
    simp only [getContactsWithRecentBirthdays, List.mem_filter, Bool.and_eq_true,
      beq_iff_eq] at hc
    exact hc.2.2

/-- C4 witness: a store holding one contact of user 1; user 2 cannot read,
update, or delete it. -/
theorem c4_contact_isolation_witness :
    getContact 1
        ⟨[⟨1, "a", "a@a", "x", true, none, none⟩, ⟨2, "b", "b@b", "y", true, none, none⟩],
          [⟨1, "Jane", "Doe", "jd@mail.com", "123", ⟨2000, 5, 10⟩, some 1⟩]⟩
        ⟨2, "b", "b@b", "y", true, none, none⟩ = none ∧
    removeContact 1
        ⟨[⟨1, "a", "a@a", "x", true, none, none⟩, ⟨2, "b", "b@b", "y", true, none, none⟩],
          [⟨1, "Jane", "Doe", "jd@mail.com", "123", ⟨2000, 5, 10⟩, some 1⟩]⟩
        ⟨2, "b", "b@b", "y", true, none, none⟩ =
      (none,
        ⟨[⟨1, "a", "a@a", "x", true, none, none⟩, ⟨2, "b", "b@b", "y", true, none, none⟩],
          [⟨1, "Jane", "Doe", "jd@mail.com", "123", ⟨2000, 5, 10⟩, some 1⟩]⟩) :=
  ⟨(c4_contact_isolation
      ⟨[⟨1, "a", "a@a", "x", true, none, none⟩, ⟨2, "b", "b@b", "y", true, none, none⟩],
        [⟨1, "Jane", "Doe", "jd@mail.com", "123", ⟨2000, 5, 10⟩, some 1⟩]⟩
      ⟨1, "a", "a@a", "x", true, none, none⟩ ⟨2, "b", "b@b", "y", true, none, none⟩ 1
      ⟨"J", "D", "e", "p", ⟨2000, 1, 1⟩⟩ ⟨2024, 5, 10⟩ (by decide) (by decide)).1,
   (c4_contact_isolation
      ⟨[⟨1, "a", "a@a", "x", true, none, none⟩, ⟨2, "b", "b@b", "y", true, none, none⟩],
        [⟨1, "Jane", "Doe", "jd@mail.com", "123", ⟨2000, 5, 10⟩, some 1⟩]⟩
      ⟨1, "a", "a@a", "x", true, none, none⟩ ⟨2, "b", "b@b", "y", true, none, none⟩ 1
      ⟨"J", "D", "e", "p", ⟨2000, 1, 1⟩⟩ ⟨2024, 5, 10⟩ (by decide) (by decide)).2.2.2.2.1⟩

/-! ## C1, C8 -/

/-- C1 (amended): `get_current_user` returns a user only under the
claim's success conditions — valid signature, unexpired, scope
`"access_token"`, subject present, matching user in the store — and in
every other case fails with the 401 credentials error, *except* that a
decodable token without a `scope` claim (such as the service's own
email-confirmation tokens), or with scope `"access_token"` but no `sub`
claim, escapes as an uncaught `KeyError` (500) instead of the 401. The
conjuncts cover every token exhaustively. -/
theorem c1_access_gate (t : Token) (db : Db) :
    (decodeOk t = false → getCurrentUser t db = AuthOutcome.unauthorized) ∧
    (decodeOk t = true → t.scope = none → getCurrentUser t db = AuthOutcome.serverError) ∧
    (decodeOk t = true → ∀ s, t.scope = some s → s ≠ "access_token" →
        getCurrentUser t db = AuthOutcome.unauthorized) ∧
    (decodeOk t = true → t.scope = some "access_token" → t.sub = none →
        getCurrentUser t db = AuthOutcome.serverError) ∧
    (decodeOk t = true → t.scope = some "access_token" → ∀ e, t.sub = some e →
        getUserByEmail e db = none → getCurrentUser t db = AuthOutcome.unauthorized) ∧
    (decodeOk t = true → t.scope = some "access_token" → ∀ e, t.sub = some e →
        ∀ u, getUserByEmail e db = some u → getCurrentUser t db = AuthOutcome.user u) ∧
    (∀ u, getCurrentUser t db = AuthOutcome.user u → grantsAccess t db u) := by
  refine ⟨?_, ?_, ?_, ?_, ?_, ?_, ?_⟩
  · intro hd
    unfold getCurrentUser
    rw [hd]
    rfl
  · intro hd hsc
    unfold getCurrentUser
    rw [hd, hsc]
    rfl
  · intro hd s hsc hs
    unfold getCurrentUser
    rw [hd, hsc]
    dsimp only
    rw [beq_eq_false_iff_ne.mpr hs]
    rfl
  · intro hd hsc hsb
    unfold getCurrentUser
    rw [hd, hsc]
    dsimp only
    rw [hsb]
    rfl
  · intro hd hsc e hsb hu
    unfold getCurrentUser
    rw [hd, hsc]
    dsimp only
    rw [hsb]
    dsimp only
    rw [hu]
    rfl
  · intro hd hsc e hsb u hu
    unfold getCurrentUser
    rw [hd, hsc]
    dsimp only
    rw [hsb]
    dsimp only
    rw [hu]
    rfl
  · intro u hres
    by_cases hd : decodeOk t = true
    · cases hsc : t.scope with
      | none =>
        unfold getCurrentUser at hres
        rw [hd, hsc] at hres
        simp at hres
      | some s =>
        by_cases hs : s = "access_token"
        · subst hs
          cases hsb : t.sub with
          | none =>
            unfold getCurrentUser at hres
            rw [hd, hsc] at hres
            simp [hsb] at hres
          | some e =>
            cases hu : getUserByEmail e db with
            | none =>
              unfold getCurrentUser at hres
              rw [hd, hsc] at hres
              simp [hsb, hu] at hres
            | some u0 =>
              unfold getCurrentUser at hres
              rw [hd, hsc] at hres
              simp [hsb, hu] at hres
              have hdk := hd
              unfold decodeOk at hdk
              simp only [Bool.and_eq_true, Bool.not_eq_true'] at hdk
              exact ⟨hdk.1, hdk.2, hsc, e, hsb, by rw [hu, hres]⟩
        · unfold getCurrentUser at hres
          rw [hd, hsc] at hres
          simp [hs] at hres
    · unfold getCurrentUser at hres
      rw [Bool.not_eq_true] at hd
      rw [hd] at hres
      simp at hres

/-- C1 counterexample: the service's own email-confirmation token has a
valid signature, is unexpired, and carries no scope claim; presented as a
bearer token it makes `get_current_user` raise an uncaught `KeyError`
rather than fail with the unauthorized credentials error — even when a
user with the subject email exists. -/
theorem c1_access_gate_counterexample :
    decodeOk (createEmailToken "jd@mail.com") = true ∧
    getCurrentUser (createEmailToken "jd@mail.com")
        ⟨[⟨1, "john", "jd@mail.com", "$2b$12$654321", true, none, none⟩], []⟩ =
      AuthOutcome.serverError ∧
    AuthOutcome.serverError ≠ AuthOutcome.unauthorized := by
  refine ⟨rfl, rfl, by simp⟩

/-- C1 witness: a well-formed access token for a stored user resolves to
that user; a refresh-scoped token is rejected as unauthorized. -/
theorem c1_access_gate_witness :
    getCurrentUser (createAccessToken "jd@mail.com")
        ⟨[⟨1, "john", "jd@mail.com", "$2b$12$654321", true, none, none⟩], []⟩ =
      AuthOutcome.user ⟨1, "john", "jd@mail.com", "$2b$12$654321", true, none, none⟩ ∧
    getCurrentUser (createRefreshToken "jd@mail.com")
        ⟨[⟨1, "john", "jd@mail.com", "$2b$12$654321", true, none, none⟩], []⟩ =
      AuthOutcome.unauthorized :=
  ⟨(c1_access_gate (createAccessToken "jd@mail.com")
      ⟨[⟨1, "john", "jd@mail.com", "$2b$12$654321", true, none, none⟩], []⟩).2.2.2.2.2.1
      rfl rfl "jd@mail.com" rfl
      ⟨1, "john", "jd@mail.com", "$2b$12$654321", true, none, none⟩ (by decide),
   (c1_access_gate (createRefreshToken "jd@mail.com")
      ⟨[⟨1, "john", "jd@mail.com", "$2b$12$654321", true, none, none⟩], []⟩).2.2.1
      rfl "refresh_token" rfl (by decide)⟩

/-- C8 (amended): `decode_refresh_token` fails with the 401 "Could not
validate credentials" on an invalid signature or expired token, with the
401 "Invalid scope for token" when a present scope claim differs from
`"refresh_token"`, and returns the subject email when the scope is
`"refresh_token"` and a subject is present; but a decodable payload with
no scope claim, or with scope `"refresh_token"` and no `sub` claim,
escapes as an uncaught `KeyError` instead. The conjuncts cover every
token exhaustively. -/
theorem c8_decode_refresh_token (t : Token) :
    (decodeOk t = false →
        decodeRefreshToken t = DecodeRT.unauthorized "Could not validate credentials") ∧
    (decodeOk t = true → t.scope = none → decodeRefreshToken t = DecodeRT.keyError) ∧
    (decodeOk t = true → ∀ s, t.scope = some s → s ≠ "refresh_token" →
        decodeRefreshToken t = DecodeRT.unauthorized "Invalid scope for token") ∧
    (decodeOk t = true → t.scope = some "refresh_token" → t.sub = none →
        decodeRefreshToken t = DecodeRT.keyError) ∧
    (decodeOk t = true → t.scope = some "refresh_token" → ∀ e, t.sub = some e →
        decodeRefreshToken t = DecodeRT.ok e) := by
  refine ⟨?_, ?_, ?_, ?_, ?_⟩
  · intro hd
    unfold decodeRefreshToken
    rw [hd]
    rfl
  · intro hd hsc
    unfold decodeRefreshToken
    rw [hd, hsc]
    rfl
  · intro hd s hsc hs
    unfold decodeRefreshToken
    rw [hd, hsc]
    dsimp only
    rw [beq_eq_false_iff_ne.mpr hs]
    rfl
  · intro hd hsc hsb
    unfold decodeRefreshToken
    rw [hd, hsc]
    dsimp only
    rw [hsb]
    rfl
  · intro hd hsc e hsb
    unfold decodeRefreshToken
    rw [hd, hsc]
    dsimp only
    rw [hsb]
    rfl

/-- C8 counterexample: a validly signed, unexpired token with scope
`"refresh_token"` but no `sub` claim satisfies none of the claim's failure
conditions, yet `decode_refresh_token` raises an uncaught `KeyError`
instead of returning a subject email or an unauthorized error. -/
theorem c8_decode_refresh_token_counterexample :
    (Token.mk true false (some "refresh_token") none).sigValid = true ∧
    (Token.mk true false (some "refresh_token") none).expired = false ∧
    (Token.mk true false (some "refresh_token") none).scope = some "refresh_token" ∧
    decodeRefreshToken (Token.mk true false (some "refresh_token") none) = DecodeRT.keyError ∧
    DecodeRT.keyError ≠ DecodeRT.unauthorized "Could not validate credentials" ∧
    DecodeRT.keyError ≠ DecodeRT.unauthorized "Invalid scope for token" := by
  refine ⟨rfl, rfl, rfl, rfl, by simp, by simp⟩

/-- C8 witness: a freshly minted refresh token decodes to its subject; an
access-scoped token is rejected with the scope error. -/
theorem c8_decode_refresh_token_witness :
    decodeRefreshToken (createRefreshToken "jd@mail.com") = DecodeRT.ok "jd@mail.com" ∧
    decodeRefreshToken (createAccessToken "jd@mail.com") =
      DecodeRT.unauthorized "Invalid scope for token" :=
  ⟨(c8_decode_refresh_token (createRefreshToken "jd@mail.com")).2.2.2.2
      rfl rfl "jd@mail.com" rfl,
   (c8_decode_refresh_token (createAccessToken "jd@mail.com")).2.2.1
      rfl "access_token" rfl (by decide)⟩

/-! ## C2 -/

/-- C2: for a presented token that decodes as a refresh token and resolves
to a stored user — if it differs from the user's stored refresh token
(including a nulled or overwritten stored value), the stored token is set
to null and the request is rejected as 401 unauthorized; if it matches, a
fresh access+refresh pair with the proper scopes is issued and the new
refresh token replaces the stored one. -/
theorem c2_refresh_rotation (token : Token) (db : Db) (email : String) (u : User)
    (hdec : decodeRefreshToken token = DecodeRT.ok email)
    (hu : getUserByEmail email db = some u) :
    (u.refresh_token ≠ some token →
        refreshRoute token db =
          (TokenPairOutcome.unauthorized "Invalid refresh token", updateToken u none db) ∧
        getUserByEmail email (refreshRoute token db).2 = some { u with refresh_token := none }) ∧
    (u.refresh_token = none →
        (refreshRoute token db).1 = TokenPairOutcome.unauthorized "Invalid refresh token") ∧
    (∀ t', u.refresh_token = some t' → t' ≠ token →
        (refreshRoute token db).1 = TokenPairOutcome.unauthorized "Invalid refresh token") ∧
    (u.refresh_token = some token →
        refreshRoute token db =
          (TokenPairOutcome.ok (createAccessToken email) (createRefreshToken email),
            updateToken u (some (createRefreshToken email)) db) ∧
        getUserByEmail email (refreshRoute token db).2 =
          some { u with refresh_token := some (createRefreshToken email) } ∧
        (createAccessToken email).scope = some "access_token" ∧
        (createRefreshToken email).scope = some "refresh_token") := by
  have hmismatch : u.refresh_token ≠ some token →
      refreshRoute token db =
        (TokenPairOutcome.unauthorized "Invalid refresh token", updateToken u none db) := by
    intro hne
    unfold refreshRoute
    rw [hdec]
    dsimp only
    rw [hu]
    dsimp only
    rw [beq_eq_false_iff_ne.mpr hne]
    rfl
  refine ⟨?_, ?_, ?_, ?_⟩
  · intro hne
    refine ⟨hmismatch hne, ?_⟩
    rw [hmismatch hne]
    exact getUserByEmail_updateToken hu
  · intro hnone
    rw [hmismatch (by rw [hnone]; simp)]
  · intro t' ht' hne
    rw [hmismatch (by rw [ht']; simp [hne])]
  · intro heq
    have hmatch : refreshRoute token db =
        (TokenPairOutcome.ok (createAccessToken email) (createRefreshToken email),
          updateToken u (some (createRefreshToken email)) db) := by
      unfold refreshRoute
      rw [hdec]
      dsimp only
      rw [hu]
      dsimp only
      rw [heq]
      simp
    refine ⟨hmatch, ?_, rfl, rfl⟩
    rw [hmatch]
    exact getUserByEmail_updateToken hu

/-- C2 witness: a user storing exactly the presented refresh token gets a
fresh pair and the rotated token; after rotation the old token no longer
matches the stored value, so replaying it is rejected with 401. -/
theorem c2_refresh_rotation_witness :
    refreshRoute (createRefreshToken "jd@mail.com")
        ⟨[⟨1, "john", "jd@mail.com", "$2b$12$654321", true,
            some ⟨true, false, some "refresh_token", some "old"⟩, none⟩], []⟩ =
      (TokenPairOutcome.unauthorized "Invalid refresh token",
        updateToken
          ⟨1, "john", "jd@mail.com", "$2b$12$654321", true,
            some ⟨true, false, some "refresh_token", some "old"⟩, none⟩
          none
          ⟨[⟨1, "john", "jd@mail.com", "$2b$12$654321", true,
              some ⟨true, false, some "refresh_token", some "old"⟩, none⟩], []⟩) ∧
    refreshRoute (createRefreshToken "jd@mail.com")
        ⟨[⟨1, "john", "jd@mail.com", "$2b$12$654321", true,
            some (createRefreshToken "jd@mail.com"), none⟩], []⟩ =
      (TokenPairOutcome.ok (createAccessToken "jd@mail.com") (createRefreshToken "jd@mail.com"),
        updateToken
          ⟨1, "john", "jd@mail.com", "$2b$12$654321", true,
            some (createRefreshToken "jd@mail.com"), none⟩
          (some (createRefreshToken "jd@mail.com"))
          ⟨[⟨1, "john", "jd@mail.com", "$2b$12$654321", true,
              some (createRefreshToken "jd@mail.com"), none⟩], []⟩) :=
  ⟨((c2_refresh_rotation (createRefreshToken "jd@mail.com")
      ⟨[⟨1, "john", "jd@mail.com", "$2b$12$654321", true,
          some ⟨true, false, some "refresh_token", some "old"⟩, none⟩], []⟩
      "jd@mail.com"
      ⟨1, "john", "jd@mail.com", "$2b$12$654321", true,
        some ⟨true, false, some "refresh_token", some "old"⟩, none⟩
      rfl (by decide)).1 (by decide)).1,
   ((c2_refresh_rotation (createRefreshToken "jd@mail.com")
      ⟨[⟨1, "john", "jd@mail.com", "$2b$12$654321", true,
          some (createRefreshToken "jd@mail.com"), none⟩], []⟩
      "jd@mail.com"
      ⟨1, "john", "jd@mail.com", "$2b$12$654321", true,
        some (createRefreshToken "jd@mail.com"), none⟩
      rfl (by decide)).2.2.2 rfl).1⟩

/-! ## Calendar lemmas for C3 -/

theorem dateLtB_iff {a b : Date} : dateLtB a b = true ↔ dateLt a b := by
  simp [dateLtB, dateLt]

theorem mdLtB_iff {a b : Date} : mdLtB a b = true ↔ mdLt a b := by
  simp [mdLtB, mdLt]

theorem dateLt_trans {a b c : Date} (h1 : dateLt a b) (h2 : dateLt b c) : dateLt a c := by
  obtain ⟨ay, am, ad⟩ := a
  obtain ⟨by', bm, bd⟩ := b
  obtain ⟨cy, cm, cd⟩ := c
  simp only [dateLt] at h1 h2 ⊢
  omega

theorem daysInMonth_ge (y : Int) (m : Nat) : 28 ≤ daysInMonth y m := by
  unfold daysInMonth
  split_ifs <;> omega

theorem daysInMonth_le (y : Int) (m : Nat) : daysInMonth y m ≤ 31 := by
  unfold daysInMonth
  split_ifs <;> omega

theorem predDate_valid {d : Date} (h : d.Valid) : (predDate d).Valid := by
  obtain ⟨h1, h2, h3, h4⟩ := h
  unfold predDate Date.Valid
  split_ifs with hd hm
  · dsimp only
    exact ⟨h1, h2, by omega, by omega⟩
  · dsimp only
    have hge := daysInMonth_ge d.year (d.month - 1)
    exact ⟨by omega, by omega, by omega, le_refl _⟩
  · dsimp only
    have h31 : daysInMonth (d.year - 1) 12 = 31 := rfl
    exact ⟨by omega, by omega, by omega, by omega⟩

theorem predDate_lt (d : Date) : dateLt (predDate d) d := by
  unfold predDate
  split_ifs with hd hm
  · exact Or.inr ⟨rfl, Or.inr ⟨rfl, show d.day - 1 < d.day by omega⟩⟩
  · exact Or.inr ⟨rfl, Or.inl (show d.month - 1 < d.month by omega)⟩
  · exact Or.inl (show d.year - 1 < d.year by omega)

theorem subDays_valid (d : Date) (n : Nat) (h : d.Valid) : (subDays d n).Valid := by
  induction n with
  | zero => exact h
  | succ n ih => exact predDate_valid ih

theorem subDays_succ_lt (d : Date) (n : Nat) : dateLt (subDays d (n + 1)) d := by
  induction n with
  | zero => exact predDate_lt d
  | succ n ih => exact dateLt_trans (predDate_lt (subDays d (n + 1))) ih

/-- Stepping at most seven days back crosses at most one year boundary:
the result either stays in the same year, or lands in late December of the
previous year. -/
theorem subDays_year_aux (d : Date) (hv : d.Valid) :
    ∀ k, k ≤ 7 →
      (subDays d k).year = d.year ∨
        ((subDays d k).year = d.year - 1 ∧ (subDays d k).month = 12 ∧
          32 ≤ (subDays d k).day + k) := by
  intro k
  induction k with
  | zero => intro _; left; rfl
  | succ k ih =>
    intro hk
    have hek := ih (by omega)
    have hev : (subDays d k).Valid := subDays_valid d k hv
    obtain ⟨hv1, hv2, hv3, hv4⟩ := hev
    have hstep : subDays d (k + 1) = predDate (subDays d k) := rfl
    rw [hstep]
    rcases hek with hsame | ⟨hy, hm, hday⟩
    · unfold predDate
      split_ifs with h1 h2
      · left; exact hsame
      · left; exact hsame
      · right
        exact ⟨show (subDays d k).year - 1 = d.year - 1 by omega, rfl,
          show 32 ≤ 31 + (k + 1) by omega⟩
    · have h1 : (subDays d k).day > 1 := by omega
      unfold predDate
      rw [if_pos h1]
      right
      exact ⟨hy, hm, show 32 ≤ (subDays d k).day - 1 + (k + 1) by omega⟩

theorem borrowDay_nonneg {d m : Int} {len : Nat} (h : 0 ≤ d) : borrowDay d m len = (d, m) := by
  unfold borrowDay
  simp only [borrowDayAux]
  rw [if_neg (by omega)]

theorem borrowDay_neg {d m : Int} {len : Nat} (hd : d < 0) (hlen : 0 ≤ d + len) :
    borrowDay d m len = (d + len, m - 1) := by
  unfold borrowDay
  obtain ⟨k, hk⟩ : ∃ k, d.natAbs = k + 1 := ⟨d.natAbs - 1, by omega⟩
  rw [hk]
  simp only [borrowDayAux]
  rw [if_pos hd]
  rw [if_neg (show ¬ ((len == 0) = true) by simp; omega)]
  rw [if_neg (by omega)]

theorem borrowMonth_nonneg {m y : Int} (h : 0 ≤ m) : borrowMonth m y = (m, y) := by
  unfold borrowMonth
  simp only [borrowMonthAux]
  rw [if_neg (by omega)]

theorem borrowMonth_neg {m y : Int} (hm : m < 0) (h12 : 0 ≤ m + 12) :
    borrowMonth m y = (m + 12, y - 1) := by
  unfold borrowMonth
  obtain ⟨k, hk⟩ : ∃ k, m.natAbs = k + 1 := ⟨m.natAbs - 1, by omega⟩
  rw [hk]
  simp only [borrowMonthAux]
  rw [if_pos hm]
  rw [if_neg (by omega)]

/-- Closed form of the `age()` years component for a birthday not after
today: full calendar years elapsed, i.e. the year difference minus one
exactly when today's (month, day) has not yet reached the birthday's. -/
theorem pgAgeYears_eq (t b : Date) (hvt : t.Valid) (hvb : b.Valid) (hle : ¬ dateLt t b) :
    pgAgeYears t b = t.year - b.year - (if mdLtB t b then 1 else 0) := by
  obtain ⟨ht1, ht2, ht3, ht4⟩ := hvt
  obtain ⟨hb1, hb2, hb3, hb4⟩ := hvb
  have hlb : dateLtB t b = false := by
    cases hB : dateLtB t b
    · rfl
    · exact absurd (dateLtB_iff.mp hB) hle
  have hmd : mdLtB t b = true ↔ mdLt t b := mdLtB_iff
  simp only [pgAgeYears]
  rw [hlb, if_neg Bool.false_ne_true]
  by_cases hneg : (t.day : Int) - (b.day : Int) < 0
  · rw [borrowDay_neg hneg (by
      have := daysInMonth_ge b.year b.month
      omega)]
    dsimp only
    by_cases hm1 : ((t.month : Int) - (b.month : Int)) - 1 < 0
    · rw [borrowMonth_neg hm1 (by omega)]
      rw [if_pos (hmd.mpr (by unfold mdLt; omega))]
    · rw [borrowMonth_nonneg (by omega)]
      rw [if_neg (by
        intro hcontra
        have := hmd.mp hcontra
        unfold mdLt at this
        omega)]
      dsimp only
      omega
  · rw [borrowDay_nonneg (by omega)]
    dsimp only
    by_cases hm1 : ((t.month : Int) - (b.month : Int)) < 0
    · rw [borrowMonth_neg hm1 (by omega)]
      rw [if_pos (hmd.mpr (by unfold mdLt; omega))]
    · rw [borrowMonth_nonneg (by omega)]
      rw [if_neg (by
        intro hcontra
        have := hmd.mp hcontra
        unfold mdLt at this
        omega)]
      dsimp only
      omega

/-- The age-delta test equals the month/day window test for valid dates
with the birthday not after today. -/
theorem hasBirthdayNextWeek_eq_window (t b : Date) (hvt : t.Valid) (hvb : b.Valid)
    (hle : ¬ dateLt t b) : hasBirthdayNextWeek t b = inBirthdayWindow t b := by
  have hvb' : (subDays b 7).Valid := subDays_valid b 7 hvb
  have hlt' : dateLt (subDays b 7) b := subDays_succ_lt b 6
  have hle' : ¬ dateLt t (subDays b 7) := fun h => hle (dateLt_trans h hlt')
  have h1 := pgAgeYears_eq t b hvt hvb hle
  have h2 := pgAgeYears_eq t (subDays b 7) hvt hvb' hle'
  have hyear := subDays_year_aux b hvb 7 (le_refl 7)
  simp only [hasBirthdayNextWeek, inBirthdayWindow]
  rw [h1, h2]
  rcases hyear with hy | ⟨hy, hm, hd⟩
  · have hcond : (((subDays b 7).year == b.year) = true) := by simp [hy]
    rw [if_pos hcond]
    cases hmd : mdLtB t b <;> cases hmd' : mdLtB t (subDays b 7) <;>
      simp [hy, hmd, hmd', decide_eq_true_eq, decide_eq_false_iff_not]
  · have hcond : ¬ (((subDays b 7).year == b.year) = true) := by
      simp only [hy, beq_iff_eq]
      omega
    rw [if_neg hcond]
    cases hmd : mdLtB t b <;> cases hmd' : mdLtB t (subDays b 7) <;>
      simp [hy, hmd, hmd', decide_eq_true_eq, decide_eq_false_iff_not]
    omega

/-! ## C3 -/

/-- C3 counterexample: with `Date ⟨y, m, d⟩` standing for a calendar date,
(1) a contact whose birthday anniversary falls *today* is excluded — the
user's own contact with birthday 2000-05-10 is absent from the query
result on 2024-05-10 although the claim says it is included; (2) on
2023-02-25 the anniversary of a leap-year birthday 2000-03-04 falls
exactly 7 days ahead yet the contact is excluded; (3) on 2024-02-25 the
anniversary of birthday 2001-03-04 falls exactly 8 days ahead yet the
contact is included. -/
theorem c3_birthday_window_counterexample :
    sameMD ⟨2024, 5, 10⟩ ⟨2000, 5, 10⟩ = true ∧
    hasBirthdayNextWeek ⟨2024, 5, 10⟩ ⟨2000, 5, 10⟩ = false ∧
    getContactsWithRecentBirthdays ⟨2024, 5, 10⟩
        ⟨[⟨1, "a", "a@a", "x", true, none, none⟩],
          [⟨1, "Jane", "Doe", "jd@mail.com", "123", ⟨2000, 5, 10⟩, some 1⟩]⟩
        ⟨1, "a", "a@a", "x", true, none, none⟩ = [] ∧
    sameMD (addDays ⟨2023, 2, 25⟩ 7) ⟨2000, 3, 4⟩ = true ∧
    hasBirthdayNextWeek ⟨2023, 2, 25⟩ ⟨2000, 3, 4⟩ = false ∧
    sameMD (addDays ⟨2024, 2, 25⟩ 8) ⟨2001, 3, 4⟩ = true ∧
    hasBirthdayNextWeek ⟨2024, 2, 25⟩ ⟨2001, 3, 4⟩ = true := by
  decide

/-- C3 (amended): for every contact of the requesting user with a valid
past birthday, membership in `get_contacts_with_recent_birthdays` is
decided by the age-delta comparison (the years of `age(today,
birthday - 7 days)` strictly exceed those of `age(today, birthday)`), not
by a direct calendar date range; it is equivalent to today's (month, day)
lying in the half-open window from the (month, day) of `birthday - 7 days`
— the step taken in the *birth year's* calendar — up to but excluding the
birthday's own (month, day), cyclically across New Year. Hence a birthday
falling today is excluded, birthdays 1–7 days ahead are included and
8 days ahead excluded except where leap-day alignment between birth year
and current year shifts the window boundary across Feb 29. -/
theorem c3_birthday_query_characterisation (today : Date) (db : Db) (user : User) (c : Contact)
    (hvt : today.Valid) (hvb : c.birthday.Valid) (hpast : ¬ dateLt today c.birthday) :
    c ∈ getContactsWithRecentBirthdays today db user ↔
      c ∈ db.contacts ∧ c.user_id = some user.id ∧ inBirthdayWindow today c.birthday = true := by
  unfold getContactsWithRecentBirthdays
  rw [List.mem_filter, hasBirthdayNextWeek_eq_window today c.birthday hvt hvb hpast]
  constructor
  · rintro ⟨hmem, hp⟩
    simp only [Bool.and_eq_true, beq_iff_eq] at hp
    exact ⟨hmem, hp.2, hp.1⟩
  · rintro ⟨hmem, huid, hwin⟩
    exact ⟨hmem, by simp [Bool.and_eq_true, beq_iff_eq, huid, hwin]⟩

/-- C3 witness: a contact with birthday three days ahead of today is
returned by the query. -/
theorem c3_birthday_query_characterisation_witness :
    (⟨1, "Jane", "Doe", "jd@mail.com", "123", ⟨2000, 5, 13⟩, some 1⟩ : Contact) ∈
      getContactsWithRecentBirthdays ⟨2024, 5, 10⟩
        ⟨[⟨1, "a", "a@a", "x", true, none, none⟩],
          [⟨1, "Jane", "Doe", "jd@mail.com", "123", ⟨2000, 5, 13⟩, some 1⟩]⟩
        ⟨1, "a", "a@a", "x", true, none, none⟩ :=
  (c3_birthday_query_characterisation ⟨2024, 5, 10⟩
      ⟨[⟨1, "a", "a@a", "x", true, none, none⟩],
        [⟨1, "Jane", "Doe", "jd@mail.com", "123", ⟨2000, 5, 13⟩, some 1⟩]⟩
      ⟨1, "a", "a@a", "x", true, none, none⟩
      ⟨1, "Jane", "Doe", "jd@mail.com", "123", ⟨2000, 5, 13⟩, some 1⟩
      (by decide) (by decide) (by decide)).mpr (by decide)

end ContactsApp
